import Mathlib

/-!
Verification of `src/api/evaluate/evaluators.py` (contoso-writer-v2).

The module is a thin stub layer: two public functions (`evaluate_article`,
`evaluate_image`), three evaluator classes whose call-operators return
hardcoded literals, and a background helper.  We embed the module shallowly:

* Python dict/list/str/int values become the inductive `Value`;
* `os.environ` becomes an explicit `Env := String → Option String` argument
  (Python raises `KeyError` on `os.environ[k]` when `k` is unset, while
  `os.getenv(k)` yields `None`, rendered as the string "None" in an f-string);
* a raised exception becomes `Except PyError`;
* the observable side effects of one call (emitted trace spans, printed
  lines) become an explicit `Effects` record returned alongside the value.
-/

/-- A Python value as used by the module: strings, ints, dicts, lists. -/
inductive Value : Type where
  | str : String → Value
  | num : Int → Value
  | obj : List (String × Value) → Value
  | arr : List Value → Value

/-- An OpenTelemetry context handle; the module only passes it through,
so an abstract identifier suffices. -/
structure TraceContext : Type where
  ctxId : Nat
deriving DecidableEq

/-- One emitted trace span: its name, the context it was opened in, and the
attributes set on it, in order. -/
structure Span : Type where
  spanName : String
  parent : TraceContext
  attrs : List (String × String)
deriving DecidableEq

/-- Observable side effects of a call: the spans it emitted and the lines it
printed (a printed line is a label together with the printed value). -/
structure Effects : Type where
  spans : List Span
  printed : List (String × Value)

/-- The ambient process environment (`os.environ`). -/
def Env : Type := String → Option String

/-- A raised Python exception.  The module itself can only raise `KeyError`
(from `os.environ[...]`); other exception kinds are carried for generality. -/
inductive PyError : Type where
  | keyError : String → PyError
  | otherError : String → PyError
deriving DecidableEq

/-- JSON escaping of one character, as `json.dumps` performs on the
characters appearing in this module's data. -/
def escapeChar (c : Char) : String :=
  if c = '"' then "\\\""
  else if c = '\\' then "\\\\"
  else if c = '\n' then "\\n"
  else if c = '\t' then "\\t"
  else if c = '\r' then "\\r"
  else String.singleton c

/-- JSON escaping of a string body. -/
def escapeString (s : String) : String :=
  String.join (s.toList.map escapeChar)

mutual

/-- `json.dumps` with its default separators (", " between items, ": " after
a key), as the module calls it. -/
def jsonDumps : Value → String
  | Value.str s => "\"" ++ escapeString s ++ "\""
  | Value.num n => toString n
  | Value.obj members => "\x7b" ++ jsonDumpsMembers members ++ "\x7d"
  | Value.arr elems => "[" ++ jsonDumpsElems elems ++ "]"

/-- Serialize the members of a JSON object. -/
def jsonDumpsMembers : List (String × Value) → String
  | [] => ""
  | [(k, v)] => "\"" ++ escapeString k ++ "\": " ++ jsonDumps v
  | (k, v) :: rest =>
      "\"" ++ escapeString k ++ "\": " ++ jsonDumps v ++ ", " ++ jsonDumpsMembers rest

/-- Serialize the elements of a JSON array. -/
def jsonDumpsElems : List Value → String
  | [] => ""
  | [v] => jsonDumps v
  | v :: rest => jsonDumps v ++ ", " ++ jsonDumpsElems rest

end

/-- Key lookup in a dict value (`d[k]` read access used only in statements). -/
def Value.lookup : Value → String → Option Value
  | Value.obj members, k => (members.find? (fun p => p.1 = k)).map (fun p => p.2)
  | _, _ => none

/-- The keys of a dict value, in order. -/
def Value.keys : Value → List String
  | Value.obj members => members.map (fun p => p.1)
  | _ => []

/-! ## The evaluator classes

The `__init__` methods construct vendor SDK evaluator objects (Azure AI
Evaluation classes and `DefaultAzureCredential`).  These are external
collaborators whose constructors store configuration; we model each as an
inert record of the arguments the module passes it. -/

/-- A constructed vendor SDK evaluator object, recording which class was
instantiated and with which configuration argument. -/
inductive VendorEvaluator : Type where
  | relevance : Value → VendorEvaluator
  | fluency : Value → VendorEvaluator
  | coherence : Value → VendorEvaluator
  | groundedness : Value → VendorEvaluator
  | violence : Value → VendorEvaluator
  | hateUnfairness : Value → VendorEvaluator
  | selfHarm : Value → VendorEvaluator
  | sexual : Value → VendorEvaluator
  | violenceMultimodal : Value → VendorEvaluator
  | selfHarmMultimodal : Value → VendorEvaluator
  | hateUnfairnessMultimodal : Value → VendorEvaluator
  | sexualMultimodal : Value → VendorEvaluator
  | protectedMaterialMultimodal : Value → VendorEvaluator
  | friendliness : VendorEvaluator

/-- `class FriendlinessEvaluator`: `__init__` takes nothing and stores
nothing. -/
structure FriendlinessEvaluator : Type where

/-- `FriendlinessEvaluator.__init__`. -/
def FriendlinessEvaluator.init : FriendlinessEvaluator := ⟨⟩

/-- `FriendlinessEvaluator.__call__(self, response)`: dummy friendliness
score, always `{"score": 5}`. -/
def FriendlinessEvaluator.call (_self : FriendlinessEvaluator) (_response : Value) : Value :=
  Value.obj [("score", Value.num 5)]

/-- `class ArticleEvaluator`: stores the dict of vendor evaluators built in
`__init__` and the project scope. -/
structure ArticleEvaluator : Type where
  evaluators : List (String × VendorEvaluator)
  project_scope : Value

/-- `ArticleEvaluator.__init__(self, model_config, project_scope)`. -/
def ArticleEvaluator.init (model_config : Value) (project_scope : Value) : ArticleEvaluator :=
  { evaluators := [
      ("relevance", VendorEvaluator.relevance model_config),
      ("fluency", VendorEvaluator.fluency model_config),
      ("coherence", VendorEvaluator.coherence model_config),
      ("groundedness", VendorEvaluator.groundedness model_config),
      ("violence", VendorEvaluator.violence project_scope),
      ("hate_unfairness", VendorEvaluator.hateUnfairness project_scope),
      ("self_harm", VendorEvaluator.selfHarm project_scope),
      ("sexual", VendorEvaluator.sexual project_scope),
      ("friendliness", VendorEvaluator.friendliness)],
    project_scope := project_scope }

/-- The dummy article evaluation result literal: the source writes this same
dict literal both in `ArticleEvaluator.__call__` (named `dummy_result`) and in
`evaluate_article` (also named `dummy_result`). -/
def dummy_result : Value :=
  Value.obj [
    ("studio_url", Value.str "https://dummy-eval.azure.com"),
    ("metrics", Value.obj [
      ("relevance.gpt_relevance", Value.num 5),
      ("fluency.gpt_fluency", Value.num 5),
      ("coherence.gpt_coherence", Value.num 5),
      ("groundedness.gpt_groundedness", Value.num 5),
      ("violence.violence_defect_rate", Value.num 0),
      ("self_harm.self_harm_defect_rate", Value.num 0),
      ("hate_unfairness.hate_unfairness_defect_rate", Value.num 0),
      ("sexual.sexual_defect_rate", Value.num 0)]),
    ("rows", Value.arr [Value.obj [
      ("relevance.gpt_relevance", Value.num 5),
      ("fluency.gpt_fluency", Value.num 5),
      ("coherence.gpt_coherence", Value.num 5),
      ("groundedness.gpt_groundedness", Value.num 5)]])]

/-- `ArticleEvaluator.__call__(self, *, data_path, **kwargs)`: always returns
the dummy evaluation results in lab mode. -/
def ArticleEvaluator.call (_self : ArticleEvaluator) (_data_path : Value) : Value :=
  dummy_result

/-- `class ImageEvaluator`: stores the dict of multimodal vendor evaluators
built in `__init__` and the project scope. -/
structure ImageEvaluator : Type where
  evaluators : List (String × VendorEvaluator)
  project_scope : Value

/-- `ImageEvaluator.__init__(self, project_scope)`. -/
def ImageEvaluator.init (project_scope : Value) : ImageEvaluator :=
  { evaluators := [
      ("violence", VendorEvaluator.violenceMultimodal project_scope),
      ("self_harm", VendorEvaluator.selfHarmMultimodal project_scope),
      ("hate_unfairness", VendorEvaluator.hateUnfairnessMultimodal project_scope),
      ("sexual", VendorEvaluator.sexualMultimodal project_scope),
      ("protected_material", VendorEvaluator.protectedMaterialMultimodal project_scope)],
    project_scope := project_scope }

/-- The dummy image evaluation result literal: the source writes this same
dict literal both in `ImageEvaluator.__call__` and in `evaluate_image` (named
`dummy_output` at both sites). -/
def dummy_output : Value :=
  Value.obj [
    ("studio_url", Value.str "https://dummy-image-eval.azure.com"),
    ("metrics", Value.obj [
      ("violence.score", Value.num 0),
      ("self_harm.score", Value.num 0),
      ("hate_unfairness.score", Value.num 0),
      ("sexual.score", Value.num 0),
      ("protected_material.score", Value.num 0)]),
    ("rows", Value.arr [Value.obj [
      ("violence.score", Value.num 0),
      ("self_harm.score", Value.num 0),
      ("hate_unfairness.score", Value.num 0),
      ("sexual.score", Value.num 0),
      ("protected_material.score", Value.num 0)]])]

/-- `ImageEvaluator.__call__(self, *, messages, **kwargs)`: always returns
the dummy image evaluation results. -/
def ImageEvaluator.call (_self : ImageEvaluator) (_messages : Value) : Value :=
  dummy_output

/-! ## The module-level functions -/

/-- `os.environ[key]`: returns the value, or raises `KeyError(key)` when the
variable is unset. -/
def environ_get (env : Env) (key : String) : Except PyError String :=
  match env key with
  | some v => Except.ok v
  | none => Except.error (PyError.keyError key)

/-- `evaluate_article(data, trace_context)`.

The span `"run_evaluators"` is opened in `trace_context`; the `"inputs"`
attribute is set first; then the environment variables are read (Python
evaluates the `configuration` dict before the `project_scope` dict, each in
source order; `AZURE_OPENAI_NAME` is read with `os.getenv` inside an f-string,
so an unset value renders as `"None"` and never raises).  An `ArticleEvaluator`
is constructed and left unused; the dummy result is returned after setting the
`"output"` attribute and printing.  When an `os.environ` lookup raises, the
`with` block closes the span (which then carries only `"inputs"`), nothing is
printed, and the `KeyError` propagates to the caller. -/
def evaluate_article (env : Env) (data : Value) (trace_context : TraceContext) :
    Except PyError Value × Effects :=
  let inputs_attr : String × String := ("inputs", jsonDumps data)
  let key_error : String → Except PyError Value × Effects := fun key =>
    (Except.error (PyError.keyError key),
     ⟨[⟨"run_evaluators", trace_context, [inputs_attr]⟩], []⟩)
  match env "AZURE_OPENAI_4_EVAL_DEPLOYMENT_NAME" with
  | none => key_error "AZURE_OPENAI_4_EVAL_DEPLOYMENT_NAME"
  | some azure_deployment =>
  match env "AZURE_OPENAI_API_VERSION" with
  | none => key_error "AZURE_OPENAI_API_VERSION"
  | some api_version =>
  let azure_endpoint : String :=
    "https://" ++ ((env "AZURE_OPENAI_NAME").getD "None") ++ ".cognitiveservices.azure.com/"
  let configuration : Value := Value.obj [
    ("azure_deployment", Value.str azure_deployment),
    ("api_version", Value.str api_version),
    ("azure_endpoint", Value.str azure_endpoint)]
  match env "AZURE_SUBSCRIPTION_ID" with
  | none => key_error "AZURE_SUBSCRIPTION_ID"
  | some subscription_id =>
  match env "AZURE_RESOURCE_GROUP" with
  | none => key_error "AZURE_RESOURCE_GROUP"
  | some resource_group_name =>
  match env "AZURE_AI_PROJECT_NAME" with
  | none => key_error "AZURE_AI_PROJECT_NAME"
  | some project_name =>
  let project_scope : Value := Value.obj [
    ("subscription_id", Value.str subscription_id),
    ("resource_group_name", Value.str resource_group_name),
    ("project_name", Value.str project_name)]
  let _evaluator : ArticleEvaluator := ArticleEvaluator.init configuration project_scope
  (Except.ok dummy_result,
   ⟨[⟨"run_evaluators", trace_context,
      [inputs_attr, ("output", jsonDumps dummy_result)]⟩],
    [("results: ", dummy_result)]⟩)

/-- `evaluate_image(messages)`: ignores `messages` and the environment,
opens no span, prints the dummy output and returns it. -/
def evaluate_image (_env : Env) (_messages : Value) : Value × Effects :=
  (dummy_output, ⟨[], [("Image evaluation (lab mode):", dummy_output)]⟩)

/-- `evaluate_article_in_background(...)`: wraps the current span into a
trace context, builds `eval_data` with JSON-serialized `query`, `context` and
`response` fields, calls `evaluate_article` on it, and discards the result
(the function returns `None`; an exception from `evaluate_article`
propagates). -/
def evaluate_article_in_background (env : Env) (current_span : TraceContext)
    (research_context : Value) (product_context : Value) (assignment_context : Value)
    (research : Value) (products : Value) (article : Value) :
    Except PyError Unit × Effects :=
  let trace_context : TraceContext := current_span
  let eval_data : Value := Value.obj [
    ("query", Value.str (jsonDumps (Value.obj [
      ("research_context", research_context),
      ("product_context", product_context),
      ("assignment_context", assignment_context)]))),
    ("context", Value.str (jsonDumps (Value.obj [
      ("research", research),
      ("products", products)]))),
    ("response", Value.str (jsonDumps article))]
  let call_result := evaluate_article env eval_data trace_context
  (call_result.1.map (fun _ => ()), call_result.2)

/-- The five environment variables `evaluate_article` reads via
`os.environ[...]` (in evaluation order). -/
def required_env_vars : List String :=
  ["AZURE_OPENAI_4_EVAL_DEPLOYMENT_NAME", "AZURE_OPENAI_API_VERSION",
   "AZURE_SUBSCRIPTION_ID", "AZURE_RESOURCE_GROUP", "AZURE_AI_PROJECT_NAME"]

/-- All five required environment variables are set. -/
def requiredEnvSet (env : Env) : Prop :=
  (env "AZURE_OPENAI_4_EVAL_DEPLOYMENT_NAME").isSome = true ∧
  (env "AZURE_OPENAI_API_VERSION").isSome = true ∧
  (env "AZURE_SUBSCRIPTION_ID").isSome = true ∧
  (env "AZURE_RESOURCE_GROUP").isSome = true ∧
  (env "AZURE_AI_PROJECT_NAME").isSome = true

/-- Build an environment from an association list (unlisted variables are
unset). -/
def envOfList (l : List (String × String)) : Env := fun key =>
  (l.find? (fun p => p.1 = key)).map (fun p => p.2)

/-- An environment with every required variable set, for concrete runs. -/
def sampleEnv : Env := envOfList [
  ("AZURE_OPENAI_4_EVAL_DEPLOYMENT_NAME", "gpt-4-eval"),
  ("AZURE_OPENAI_API_VERSION", "2024-02-01"),
  ("AZURE_OPENAI_NAME", "contoso-openai"),
  ("AZURE_SUBSCRIPTION_ID", "sub-123"),
  ("AZURE_RESOURCE_GROUP", "rg-contoso"),
  ("AZURE_AI_PROJECT_NAME", "contoso-project")]

/-- The environment with no variable set. -/
def emptyEnv : Env := fun _ => none

/-! ## Auxiliary definitions for the stated properties -/

/-- The empty telemetry log. -/
def Effects.empty : Effects := ⟨[], []⟩

/-- Concatenation of telemetry logs (spans and printed lines are append-only). -/
def Effects.append (a : Effects) (b : Effects) : Effects :=
  ⟨a.spans ++ b.spans, a.printed ++ b.printed⟩

/-- Run `evaluate_article` when the process-wide telemetry log already holds
`log`: the only state the module touches is this append-only log. -/
def runArticleFrom (env : Env) (data : Value) (c : TraceContext) (log : Effects) :
    Except PyError Value × Effects :=
  let r := evaluate_article env data c
  (r.1, Effects.append log r.2)

/-- Run `evaluate_image` when the process-wide telemetry log already holds
`log`. -/
def runImageFrom (env : Env) (messages : Value) (log : Effects) : Value × Effects :=
  let r := evaluate_image env messages
  (r.1, Effects.append log r.2)

/-- Is this value a number? -/
def Value.isNum : Value → Bool
  | Value.num _ => true
  | _ => false

/-- A dict whose values are all numbers (string keys are by construction). -/
def metricsMapOk : Value → Bool
  | Value.obj members => members.all (fun p => p.2.isNum)
  | _ => false

/-- A sequence of per-row mappings from string keys to numbers. -/
def rowsSeqOk : Value → Bool
  | Value.arr rows => rows.all (fun r => metricsMapOk r)
  | _ => false

/-- The evaluation-result record invariant of the data model: a `"metrics"`
entry mapping string metric names to numeric scores, and a `"rows"` entry
holding a sequence of per-row mappings from string keys to numbers. -/
def resultRecordOk (v : Value) : Bool :=
  match v.lookup "metrics", v.lookup "rows" with
  | some m, some r => metricsMapOk m && rowsSeqOk r
  | _, _ => false

/-! ## Shared lemmas -/

/-- Complete case analysis of `evaluate_article`: either some required
environment variable is unset and the call raises `KeyError` after emitting
the span with only the `"inputs"` attribute, or all five are set and the call
returns the dummy literal after emitting the fully annotated span and the
printed line. -/
theorem evaluate_article_cases (env : Env) (data : Value) (c : TraceContext) :
    (∃ k, k ∈ required_env_vars ∧ env k = none ∧
      evaluate_article env data c =
        (Except.error (PyError.keyError k),
         ⟨[⟨"run_evaluators", c, [("inputs", jsonDumps data)]⟩], []⟩)) ∨
    (requiredEnvSet env ∧
      evaluate_article env data c =
        (Except.ok dummy_result,
         ⟨[⟨"run_evaluators", c,
            [("inputs", jsonDumps data), ("output", jsonDumps dummy_result)]⟩],
          [("results: ", dummy_result)]⟩)) := by
  cases hA : env "AZURE_OPENAI_4_EVAL_DEPLOYMENT_NAME" with
  | none => exact Or.inl ⟨_, by simp [required_env_vars], hA, by simp [evaluate_article, hA]⟩
  | some v1 =>
  cases hB : env "AZURE_OPENAI_API_VERSION" with
  | none => exact Or.inl ⟨_, by simp [required_env_vars], hB, by simp [evaluate_article, hA, hB]⟩
  | some v2 =>
  cases hC : env "AZURE_SUBSCRIPTION_ID" with
  | none => exact Or.inl ⟨_, by simp [required_env_vars], hC, by simp [evaluate_article, hA, hB, hC]⟩
  | some v3 =>
  cases hD : env "AZURE_RESOURCE_GROUP" with
  | none => exact Or.inl ⟨_, by simp [required_env_vars], hD,
      by simp [evaluate_article, hA, hB, hC, hD]⟩
  | some v4 =>
  cases hE : env "AZURE_AI_PROJECT_NAME" with
  | none => exact Or.inl ⟨_, by simp [required_env_vars], hE,
      by simp [evaluate_article, hA, hB, hC, hD, hE]⟩
  | some v5 =>
  exact Or.inr ⟨⟨by simp [hA], by simp [hB], by simp [hC], by simp [hD], by simp [hE]⟩,
    by simp [evaluate_article, hA, hB, hC, hD, hE]⟩

/-- When all required variables are set, none of them looks up to `none`. -/
theorem requiredEnvSet_not_none (env : Env) (h : requiredEnvSet env)
    (k : String) (hk : k ∈ required_env_vars) : env k ≠ none := by
  obtain ⟨e1, e2, e3, e4, e5⟩ := h
  simp only [Option.isSome_iff_exists] at e1 e2 e3 e4 e5
  simp only [required_env_vars, List.mem_cons, List.not_mem_nil, or_false] at hk
  rcases hk with rfl | rfl | rfl | rfl | rfl
  · obtain ⟨a, ha⟩ := e1; simp [ha]
  · obtain ⟨a, ha⟩ := e2; simp [ha]
  · obtain ⟨a, ha⟩ := e3; simp [ha]
  · obtain ⟨a, ha⟩ := e4; simp [ha]
  · obtain ⟨a, ha⟩ := e5; simp [ha]

/-- Under `requiredEnvSet`, `evaluate_article` takes the successful branch. -/
theorem evaluate_article_of_envSet (env : Env) (data : Value) (c : TraceContext)
    (h : requiredEnvSet env) :
    evaluate_article env data c =
      (Except.ok dummy_result,
       ⟨[⟨"run_evaluators", c,
          [("inputs", jsonDumps data), ("output", jsonDumps dummy_result)]⟩],
        [("results: ", dummy_result)]⟩) := by
  rcases evaluate_article_cases env data c with ⟨k, hkmem, hknone, _⟩ | ⟨_, heq⟩
  · exact absurd hknone (requiredEnvSet_not_none env h k hkmem)
  · exact heq

/-! ## Claim theorems -/

/-- C1: for every input, the two public functions return their fixed literal
dictionaries regardless of input: `evaluate_article data trace_context`
(which needs the required environment variables to be set in order to return
at all) returns exactly the article result literal `dummy_result` — studio
URL "https://dummy-eval.azure.com", four quality metrics equal to 5, four
defect rates equal to 0, one row — and `evaluate_image messages` returns
exactly the image result literal `dummy_output` — studio URL
"https://dummy-image-eval.azure.com", five scores equal to 0, one row — with
neither return value depending on the argument. -/
theorem C1_public_functions_return_fixed_literals
    (env : Env) (data : Value) (trace_context : TraceContext) (messages : Value)
    (h : requiredEnvSet env) :
    (evaluate_article env data trace_context).1 = Except.ok dummy_result ∧
    (evaluate_image env messages).1 = dummy_output := by
  refine ⟨?_, rfl⟩
  rw [evaluate_article_of_envSet env data trace_context h]

/-- Witness for C1 at a concrete environment and concrete arguments. -/
theorem C1_witness :
    (evaluate_article sampleEnv (Value.str "an article") ⟨7⟩).1 = Except.ok dummy_result ∧
    (evaluate_image sampleEnv (Value.str "a message")).1 = dummy_output :=
  C1_public_functions_return_fixed_literals sampleEnv (Value.str "an article") ⟨7⟩
    (Value.str "a message") ⟨rfl, rfl, rfl, rfl, rfl⟩

/-- C2: for every input, if all required environment variables are set,
neither `evaluate_article` nor `evaluate_image` raises: `evaluate_article`
reaches its return (the `ArticleEvaluator` construction it performs first,
`ArticleEvaluator.init`, is total in the embedding, as the vendor
constructors only store configuration), and `evaluate_image` is total and
yields its literal. -/
theorem C2_no_exception_when_env_set
    (env : Env) (data : Value) (c : TraceContext) (messages : Value)
    (h : requiredEnvSet env) :
    ((evaluate_article env data c).1).isOk = true ∧
    evaluate_image env messages =
      (dummy_output, ⟨[], [("Image evaluation (lab mode):", dummy_output)]⟩) := by
  refine ⟨?_, rfl⟩
  rw [evaluate_article_of_envSet env data c h]
  rfl

/-- Witness for C2 at a concrete environment and concrete arguments. -/
theorem C2_witness :
    ((evaluate_article sampleEnv (Value.num 3) ⟨1⟩).1).isOk = true ∧
    evaluate_image sampleEnv (Value.num 4) =
      (dummy_output, ⟨[], [("Image evaluation (lab mode):", dummy_output)]⟩) :=
  C2_no_exception_when_env_set sampleEnv (Value.num 3) ⟨1⟩ (Value.num 4)
    ⟨rfl, rfl, rfl, rfl, rfl⟩

/-- C3 counterexample: the claim that every externally visible operation
returns one of the same two hardcoded result literals and emits a trace span
is false at a concrete input: `FriendlinessEvaluator.__call__` applied to
the response "hello" returns `{"score": 5}`, which is neither the article
literal nor the image literal; moreover `evaluate_image` emits no span. -/
theorem C3_counterexample_friendliness_literal :
    FriendlinessEvaluator.call FriendlinessEvaluator.init (Value.str "hello") ≠ dummy_result ∧
    FriendlinessEvaluator.call FriendlinessEvaluator.init (Value.str "hello") ≠ dummy_output ∧
    (evaluate_image emptyEnv (Value.str "msg")).2.spans = [] := by
  refine ⟨fun h => ?_, fun h => ?_, rfl⟩
  · have hk := congrArg Value.keys h
    simp [FriendlinessEvaluator.call, dummy_result, Value.keys] at hk
  · have hk := congrArg Value.keys h
    simp [FriendlinessEvaluator.call, dummy_output, Value.keys] at hk

/-- C3 amended: every externally visible operation accepts arbitrary input
and ignores it, returning a fixed hardcoded literal: `ArticleEvaluator.__call__`
and (when the required environment variables are set) `evaluate_article`
return the article literal, `ImageEvaluator.__call__` and `evaluate_image`
return the image literal, and `FriendlinessEvaluator.__call__` returns the
fixed `{"score": 5}` literal; only `evaluate_article` emits an annotated
trace span — `evaluate_image` emits none. -/
theorem C3_amended_operation_contracts
    (self : ArticleEvaluator) (data_path : Value)
    (self2 : ImageEvaluator) (msgs : Value)
    (fe : FriendlinessEvaluator) (response : Value)
    (env : Env) (data : Value) (c : TraceContext) (messages : Value)
    (h : requiredEnvSet env) :
    ArticleEvaluator.call self data_path = dummy_result ∧
    ImageEvaluator.call self2 msgs = dummy_output ∧
    FriendlinessEvaluator.call fe response = Value.obj [("score", Value.num 5)] ∧
    (evaluate_image env messages).1 = dummy_output ∧
    (evaluate_image env messages).2.spans = [] ∧
    (evaluate_article env data c).1 = Except.ok dummy_result ∧
    (evaluate_article env data c).2.spans =
      [⟨"run_evaluators", c,
        [("inputs", jsonDumps data), ("output", jsonDumps dummy_result)]⟩] := by
  refine ⟨rfl, rfl, rfl, rfl, rfl, ?_, ?_⟩ <;>
    rw [evaluate_article_of_envSet env data c h]

/-- Witness for the amended C3 at concrete evaluators, environment and
arguments. -/
theorem C3_amended_witness :
    ArticleEvaluator.call
        (ArticleEvaluator.init (Value.obj []) (Value.obj [])) (Value.str "p") = dummy_result ∧
    ImageEvaluator.call (ImageEvaluator.init (Value.obj [])) (Value.str "m") = dummy_output ∧
    FriendlinessEvaluator.call FriendlinessEvaluator.init (Value.str "r") =
      Value.obj [("score", Value.num 5)] ∧
    (evaluate_image sampleEnv (Value.str "i")).1 = dummy_output ∧
    (evaluate_image sampleEnv (Value.str "i")).2.spans = [] ∧
    (evaluate_article sampleEnv (Value.str "d") ⟨2⟩).1 = Except.ok dummy_result ∧
    (evaluate_article sampleEnv (Value.str "d") ⟨2⟩).2.spans =
      [⟨"run_evaluators", ⟨2⟩,
        [("inputs", jsonDumps (Value.str "d")), ("output", jsonDumps dummy_result)]⟩] :=
  C3_amended_operation_contracts
    (ArticleEvaluator.init (Value.obj []) (Value.obj [])) (Value.str "p")
    (ImageEvaluator.init (Value.obj [])) (Value.str "m")
    FriendlinessEvaluator.init (Value.str "r")
    sampleEnv (Value.str "d") ⟨2⟩ (Value.str "i") ⟨rfl, rfl, rfl, rfl, rfl⟩

/-- An environment in which only the deployment name is set: the other four
required variables are unset. -/
def partialEnv : Env := envOfList [("AZURE_OPENAI_4_EVAL_DEPLOYMENT_NAME", "gpt-4-eval")]

/-- An environment with all five required variables set but with
`AZURE_OPENAI_NAME` (read with `os.getenv`) unset. -/
def noOpenaiNameEnv : Env := envOfList [
  ("AZURE_OPENAI_4_EVAL_DEPLOYMENT_NAME", "gpt-4-eval"),
  ("AZURE_OPENAI_API_VERSION", "2024-02-01"),
  ("AZURE_SUBSCRIPTION_ID", "sub-123"),
  ("AZURE_RESOURCE_GROUP", "rg-contoso"),
  ("AZURE_AI_PROJECT_NAME", "contoso-project")]

/-- C4: nothing in the module catches exceptions: whenever one of the five
required environment variables (read with `os.environ[...]`) is unset,
`evaluate_article` raises an uncaught `KeyError` naming a required variable
and returns no result; while `AZURE_OPENAI_NAME`, read via `os.getenv`,
never causes a raise when absent — with the five required variables set and
`AZURE_OPENAI_NAME` unset, the call still returns the dummy literal. -/
theorem C4_missing_env_raises_keyError
    (env : Env) (data : Value) (c : TraceContext)
    (hmiss : ∃ k, k ∈ required_env_vars ∧ env k = none)
    (env2 : Env) (hset : requiredEnvSet env2)
    (_hname : env2 "AZURE_OPENAI_NAME" = none) :
    (∃ k, k ∈ required_env_vars ∧
      (evaluate_article env data c).1 = Except.error (PyError.keyError k)) ∧
    (evaluate_article env2 data c).1 = Except.ok dummy_result := by
  constructor
  · rcases evaluate_article_cases env data c with ⟨k, hkmem, _, heq⟩ | ⟨hset', _⟩
    · exact ⟨k, hkmem, by rw [heq]⟩
    · obtain ⟨k, hkmem, hknone⟩ := hmiss
      exact absurd hknone (requiredEnvSet_not_none env hset' k hkmem)
  · rw [evaluate_article_of_envSet env2 data c hset]

/-- Witness for C4: `partialEnv` lacks `AZURE_OPENAI_API_VERSION`, and
`noOpenaiNameEnv` has the five required variables but no `AZURE_OPENAI_NAME`. -/
theorem C4_witness :
    (∃ k, k ∈ required_env_vars ∧
      (evaluate_article partialEnv (Value.str "d") ⟨3⟩).1 =
        Except.error (PyError.keyError k)) ∧
    (evaluate_article noOpenaiNameEnv (Value.str "d") ⟨3⟩).1 = Except.ok dummy_result :=
  C4_missing_env_raises_keyError partialEnv (Value.str "d") ⟨3⟩
    ⟨"AZURE_OPENAI_API_VERSION", by simp [required_env_vars], rfl⟩
    noOpenaiNameEnv ⟨rfl, rfl, rfl, rfl, rfl⟩ rfl

/-- C5: for every data argument (under the required environment variables,
which `evaluate_article` needs in order to reach its return),
`evaluate_article` opens exactly one span, named "run_evaluators", in the
supplied trace context, and sets on it an "inputs" attribute equal to the
JSON serialization of the data argument followed by an "output" attribute
equal to the JSON serialization of the dictionary it returns. -/
theorem C5_span_inputs_output_attributes
    (env : Env) (data : Value) (trace_context : TraceContext)
    (h : requiredEnvSet env) :
    (evaluate_article env data trace_context).2.spans =
      [⟨"run_evaluators", trace_context,
        [("inputs", jsonDumps data), ("output", jsonDumps dummy_result)]⟩] ∧
    (evaluate_article env data trace_context).1 = Except.ok dummy_result := by
  rw [evaluate_article_of_envSet env data trace_context h]
  exact ⟨rfl, rfl⟩

/-- Witness for C5 at a concrete environment, data argument and context. -/
theorem C5_witness :
    (evaluate_article sampleEnv (Value.obj [("q", Value.str "hi")]) ⟨9⟩).2.spans =
      [⟨"run_evaluators", ⟨9⟩,
        [("inputs", jsonDumps (Value.obj [("q", Value.str "hi")])),
         ("output", jsonDumps dummy_result)]⟩] ∧
    (evaluate_article sampleEnv (Value.obj [("q", Value.str "hi")]) ⟨9⟩).1 =
      Except.ok dummy_result :=
  C5_span_inputs_output_attributes sampleEnv (Value.obj [("q", Value.str "hi")]) ⟨9⟩
    ⟨rfl, rfl, rfl, rfl, rfl⟩

/-- C6: the public operations are stateless and deterministic: the result of
a call does not depend on the accumulated telemetry log (the only state the
module touches), two calls with equal arguments under equal environments
return equal results, and a completed call is observable to a later call only
through that append-only log — so re-running the same call after a first run
yields the same result. -/
theorem C6_stateless_deterministic
    (env : Env) (data : Value) (c : TraceContext) (messages : Value)
    (log log2 : Effects) :
    (runArticleFrom env data c log).1 = (runArticleFrom env data c log2).1 ∧
    (runImageFrom env messages log).1 = (runImageFrom env messages log2).1 ∧
    (runArticleFrom env data c ((runArticleFrom env data c log).2)).1 =
      (runArticleFrom env data c log).1 ∧
    (runImageFrom env messages ((runImageFrom env messages log).2)).1 =
      (runImageFrom env messages log).1 :=
  ⟨rfl, rfl, rfl, rfl⟩

/-- C7: every evaluation-result record the module returns — from
`ArticleEvaluator.__call__`, `ImageEvaluator.__call__`, `evaluate_image`, and
any successful `evaluate_article` — satisfies the data-model invariant: its
"metrics" entry maps the fixed string metric names to numeric scores, and its
"rows" entry is a sequence of per-row mappings from fixed string keys to
numbers. -/
theorem C7_result_record_invariant
    (self : ArticleEvaluator) (data_path : Value)
    (self2 : ImageEvaluator) (msgs : Value)
    (env : Env) (data : Value) (c : TraceContext) (messages : Value) (v : Value)
    (h : (evaluate_article env data c).1 = Except.ok v) :
    resultRecordOk (ArticleEvaluator.call self data_path) = true ∧
    resultRecordOk (ImageEvaluator.call self2 msgs) = true ∧
    resultRecordOk (evaluate_image env messages).1 = true ∧
    resultRecordOk v = true := by
  refine ⟨rfl, rfl, rfl, ?_⟩
  rcases evaluate_article_cases env data c with ⟨k, _, _, heq⟩ | ⟨_, heq⟩ <;>
      rw [heq] at h
  · exact absurd h (by simp)
  · cases h
    rfl

/-- Witness for C7 at concrete evaluators, environment and arguments. -/
theorem C7_witness :
    resultRecordOk (ArticleEvaluator.call
      (ArticleEvaluator.init (Value.obj []) (Value.obj [])) (Value.str "p")) = true ∧
    resultRecordOk (ImageEvaluator.call
      (ImageEvaluator.init (Value.obj [])) (Value.str "m")) = true ∧
    resultRecordOk (evaluate_image sampleEnv (Value.str "i")).1 = true ∧
    resultRecordOk dummy_result = true :=
  C7_result_record_invariant
    (ArticleEvaluator.init (Value.obj []) (Value.obj [])) (Value.str "p")
    (ImageEvaluator.init (Value.obj [])) (Value.str "m")
    sampleEnv (Value.str "d") ⟨5⟩ (Value.str "i") dummy_result
    (by rw [evaluate_article_of_envSet sampleEnv (Value.str "d") ⟨5⟩ ⟨rfl, rfl, rfl, rfl, rfl⟩])

/-- C8: unlike `evaluate_article`, `evaluate_image` reads no environment
variables and opens no trace span (and, by its definition, constructs no
evaluator objects): its entire behaviour is invariant under changing the
environment, and even under the empty environment — every variable unset —
it returns its literal without raising and emits no span. -/
theorem C8_image_env_independent (env : Env) (env2 : Env) (messages : Value) :
    evaluate_image env messages = evaluate_image env2 messages ∧
    (evaluate_image emptyEnv messages).1 = dummy_output ∧
    (evaluate_image emptyEnv messages).2.spans = [] :=
  ⟨rfl, rfl, rfl⟩

/-- C9: for all six arguments, `evaluate_article_in_background` builds the
evaluation-input record with "query" equal to the JSON serialization of the
dict of `research_context`, `product_context` and `assignment_context`,
"context" equal to the JSON serialization of the dict of `research` and
`products`, and "response" equal to the JSON serialization of `article`;
passes it to `evaluate_article` under the current span's context; and
discards the result, returning `None` (`Unit` here) in its place. -/
theorem C9_background_builds_eval_data
    (env : Env) (current_span : TraceContext)
    (research_context : Value) (product_context : Value) (assignment_context : Value)
    (research : Value) (products : Value) (article : Value) :
    evaluate_article_in_background env current_span
        research_context product_context assignment_context research products article =
      ((evaluate_article env (Value.obj [
          ("query", Value.str (jsonDumps (Value.obj [
            ("research_context", research_context),
            ("product_context", product_context),
            ("assignment_context", assignment_context)]))),
          ("context", Value.str (jsonDumps (Value.obj [
            ("research", research),
            ("products", products)]))),
          ("response", Value.str (jsonDumps article))]) current_span).1.map (fun _ => ()),
       (evaluate_article env (Value.obj [
          ("query", Value.str (jsonDumps (Value.obj [
            ("research_context", research_context),
            ("product_context", product_context),
            ("assignment_context", assignment_context)]))),
          ("context", Value.str (jsonDumps (Value.obj [
            ("research", research),
            ("products", products)]))),
          ("response", Value.str (jsonDumps article))]) current_span).2) :=
  rfl

/-- C10: in every result returned by `evaluate_article` (under the required
environment variables) and `ArticleEvaluator.__call__` — both return
`dummy_result` — the "rows" entry contains exactly one row, that row carries
only the four quality-metric keys, and the four safety defect-rate keys
present in "metrics" are absent from the row. -/
theorem C10_single_row_quality_keys_only
    (self : ArticleEvaluator) (data_path : Value)
    (env : Env) (data : Value) (c : TraceContext)
    (h : requiredEnvSet env) :
    ArticleEvaluator.call self data_path = dummy_result ∧
    (evaluate_article env data c).1 = Except.ok dummy_result ∧
    (∃ row : Value, Value.lookup dummy_result "rows" = some (Value.arr [row]) ∧
      Value.keys row = ["relevance.gpt_relevance", "fluency.gpt_fluency",
        "coherence.gpt_coherence", "groundedness.gpt_groundedness"] ∧
      Value.lookup row "violence.violence_defect_rate" = none ∧
      Value.lookup row "self_harm.self_harm_defect_rate" = none ∧
      Value.lookup row "hate_unfairness.hate_unfairness_defect_rate" = none ∧
      Value.lookup row "sexual.sexual_defect_rate" = none) := by
  refine ⟨rfl, ?_, ?_⟩
  · rw [evaluate_article_of_envSet env data c h]
  · exact ⟨Value.obj [
      ("relevance.gpt_relevance", Value.num 5),
      ("fluency.gpt_fluency", Value.num 5),
      ("coherence.gpt_coherence", Value.num 5),
      ("groundedness.gpt_groundedness", Value.num 5)],
      rfl, rfl, rfl, rfl, rfl, rfl⟩

/-- Witness for C10 at a concrete evaluator, environment and arguments. -/
theorem C10_witness :
    ArticleEvaluator.call
        (ArticleEvaluator.init (Value.obj []) (Value.obj [])) (Value.str "p") = dummy_result ∧
    (evaluate_article sampleEnv (Value.str "d") ⟨4⟩).1 = Except.ok dummy_result ∧
    (∃ row : Value, Value.lookup dummy_result "rows" = some (Value.arr [row]) ∧
      Value.keys row = ["relevance.gpt_relevance", "fluency.gpt_fluency",
        "coherence.gpt_coherence", "groundedness.gpt_groundedness"] ∧
      Value.lookup row "violence.violence_defect_rate" = none ∧
      Value.lookup row "self_harm.self_harm_defect_rate" = none ∧
      Value.lookup row "hate_unfairness.hate_unfairness_defect_rate" = none ∧
      Value.lookup row "sexual.sexual_defect_rate" = none) :=
  C10_single_row_quality_keys_only
    (ArticleEvaluator.init (Value.obj []) (Value.obj [])) (Value.str "p")
    sampleEnv (Value.str "d") ⟨4⟩ ⟨rfl, rfl, rfl, rfl, rfl⟩
